import Mathlib

/-!
Verification of the virtual-endpoint pagination-and-scrape engine of the
Python-AtoM-API repository, as a shallow embedding in Lean 4.

The embedding translates the relevant Python source directly:

* `src/atomapi/endpoints.py`, class `VirtualBrowseTaxonomyEndpoint`
  (namespace `VirtualBrowseTaxonomyEndpoint`): the `call` caching wrapper,
  `_scrape_items_from_frontend`, `_get_page_urls_and_first_page_content`
  (whose while loop becomes `plan_aux` / `planPages`), `_get_page_content`.
* `src/atomapi/models/base.py`, class `VirtualBaseModel`
  (namespace `VirtualBaseModel`): `get_list_from_ui`, `_enumerate_list_urls`,
  `_get_total_list_items`, `_get_page_content`, and the four-language
  `RESULTS` regular expression.
* `src/atomapi/cache.py`, class `Cache` (namespace `Cache`): `retrieve`,
  with the on-disk file state abstracted as `DiskFile`.
* `src/atomapi/endpoints.py`, class `BrowseInformationObjectEndpoint`
  (namespace `BrowseInformationObjectEndpoint`): `_get_cache_id`, together
  with executable models of `json.dumps` (on string-valued dicts) and of
  `hashlib.md5`.

HTTP responses are abstracted as `Response` (status plus body text); network
and HTML-parsing collaborators (the `requests` session, BeautifulSoup's
`find`, the per-endpoint soup parsers) are oracle function parameters, since
they are external libraries.  Pages are identified by their page number: the
URL produced by `str.format` for page `p` is in bijection with `p` once the
template and the remaining placeholders are fixed.  Python exceptions become
the `ScrapeError` sum type; distinct constructors correspond to the distinct
exception messages raised by the source.
-/

set_option autoImplicit false

namespace AtomSpec

/-- Errors raised by the scrape pipeline.  `transport` is
`response.raise_for_status()` (HTTP status 400 or above); `sessionExhausted`
is the `ConnectionError('Too many users are logged in, ...')` raised on the
concurrent-session marker; `parseError` is the
`ConnectionError('Could not find total results in tag: ...')`;
`cachingDisabled` and `unregistered` are the two `ValueError`s raised by
`VirtualBrowseTaxonomyEndpoint.call`; `badLanguage` and `badPath` are the two
`ValueError`s raised by `VirtualBaseModel.get_list_from_ui`. -/
inductive ScrapeError where
  | transport
  | sessionExhausted
  | parseError
  | cachingDisabled
  | unregistered
  | badLanguage
  | badPath
deriving DecidableEq, Repr

/-- An HTTP response: status code and body text, the two fields of the
`requests` response the scraper reads. -/
structure Response where
  status : Nat
  text : String
deriving DecidableEq, Repr

/-- Substring test on character lists: Python's `needle in haystack`. -/
def containsSub (needle : List Char) : List Char → Bool
  | [] => needle.isEmpty
  | c :: rest => needle.isPrefixOf (c :: rest) || containsSub needle rest

/-- Python's `needle in haystack` on strings. -/
def strContains (haystack needle : String) : Bool :=
  containsSub needle.data haystack.data

/-- The soft-failure marker inspected by
`VirtualBrowseTaxonomyEndpoint._get_page_content` (endpoints.py line 351). -/
def sessionMarker : String := "maximum number of concurrent user sessions"

/-! ### A small regular-expression engine

Executable model of the two `re` patterns used by the scrapers.  Both
patterns are a rigid alternation of literal-word alternatives, whitespace,
and digit groups, which the token list `RTok` captures:

* `alts ws`  — a group `(w₁|w₂|…)` of literal words, tried left to right
  exactly as Python's alternation;
* `ws1`     — `\s` (exactly one whitespace character);
* `wsMany`  — `\s+`;
* `digits`  — `(\d+)`, a captured digit group, returned as its numeric
  value (the source immediately applies `int(...)` to every group it uses).

Greedy matching of `\s+`/`\d+` without backtracking into the run is
equivalent to Python's backtracking here because in both source patterns a
whitespace run is always followed by a digit or a letter and a digit run by
a whitespace or the end of the pattern, so shortening a run can never
enable a match.  Alternation backtracking (which Python does use, e.g. on
Dutch `tot` where the earlier alternative `to` matches a prefix) is
implemented faithfully in `tryAlts`.  `Char.isWhitespace`/`Char.isDigit`
model `\s`/`\d` on the ASCII pages involved. -/

inductive RTok where
  | alts : List (List Char) → RTok
  | ws1 : RTok
  | wsMany : RTok
  | digits : RTok

/-- Drop leading whitespace, returning how many characters were dropped. -/
def skipWs : List Char → Nat × List Char
  | [] => (0, [])
  | c :: cs =>
    if c.isWhitespace then
      let r := skipWs cs
      (r.1 + 1, r.2)
    else (0, c :: cs)

/-- Consume leading decimal digits, accumulating their value (this is the
`int(...)` applied by the source to the captured group). -/
def takeDigits (acc : Nat) : List Char → Nat × List Char
  | [] => (acc, [])
  | c :: cs =>
    if c.isDigit then takeDigits (10 * acc + (c.toNat - 48)) cs
    else (acc, c :: cs)

/-- Try the alternatives of one group left to right; on a literal match,
run the continuation `k` (the matcher for the rest of the pattern) on the
remaining input, backtracking to the next alternative if it fails — exactly
Python's ordered alternation. -/
def tryAlts (k : List Char → Option (List Nat)) :
    List (List Char) → List Char → Option (List Nat)
  | [], _ => none
  | w :: more, cs =>
    match (if w.isPrefixOf cs then k (cs.drop w.length) else none) with
    | some r => some r
    | none => tryAlts k more cs

/-- Match a token list against the start of the input, returning the list of
captured digit-group values on success. -/
def matchToks : List RTok → List Char → Option (List Nat)
  | [] => fun _ => some []
  | .alts ws :: rest => fun cs => tryAlts (matchToks rest) ws cs
  | .ws1 :: rest => fun cs =>
    match cs with
    | [] => none
    | c :: cs2 => if c.isWhitespace then matchToks rest cs2 else none
  | .wsMany :: rest => fun cs =>
    let r := skipWs cs
    if r.1 = 0 then none else matchToks rest r.2
  | .digits :: rest => fun cs =>
    match cs with
    | [] => none
    | c :: cs2 =>
      if c.isDigit then
        let r := takeDigits 0 (c :: cs2)
        (matchToks rest r.2).map (r.1 :: ·)
      else none

/-- Python's `re.search`: try the pattern at every start position, leftmost
match wins. -/
def reSearch (toks : List RTok) : List Char → Option (List Nat)
  | [] => matchToks toks []
  | c :: t =>
    match matchToks toks (c :: t) with
    | some r => some r
    | none => reSearch toks t

/-- The single-language pattern of endpoints.py line 269:
`Results\s(?P<start>\d+)\sto\s(?P<end>\d+)\sof\s(?P<total>\d+)`. -/
def RESULTS_ep : List RTok :=
  [.alts ["Results".data], .ws1, .digits, .ws1, .alts ["to".data], .ws1,
   .digits, .ws1, .alts ["of".data], .ws1, .digits]

/-- First-word alternatives of the four-language pattern
(models/base.py line 45): `Results|Résultats|Resultados|Resultaten`. -/
def baseW1 : List (List Char) :=
  ["Results".data, "Résultats".data, "Resultados".data, "Resultaten".data]

/-- Middle-word alternatives (line 47): `to|à|a|tot`. -/
def baseW2 : List (List Char) := ["to".data, "à".data, "a".data, "tot".data]

/-- Last-word alternatives (line 49): `of|sur|de|van`. -/
def baseW3 : List (List Char) := ["of".data, "sur".data, "de".data, "van".data]

/-- The four-language pattern of models/base.py lines 44-51. -/
def RESULTS_base : List RTok :=
  [.alts baseW1, .wsMany, .digits, .wsMany, .alts baseW2, .wsMany, .digits,
   .wsMany, .alts baseW3, .wsMany, .digits]

/-- The pattern suffix following the first word group. -/
def baseRest1 : List RTok :=
  [.wsMany, .digits, .wsMany, .alts baseW2, .wsMany, .digits, .wsMany,
   .alts baseW3, .wsMany, .digits]

/-- The pattern suffix following the middle word group. -/
def baseRest2 : List RTok :=
  [.wsMany, .digits, .wsMany, .alts baseW3, .wsMany, .digits]

/-- The pattern suffix following the last word group. -/
def baseRest3 : List RTok := [.wsMany, .digits]

/-- Render a base-10 digit sequence as its characters. -/
def renderDigits (ds : List (Fin 10)) : List Char :=
  ds.map (fun d => Char.ofNat (48 + d.val))

/-- Numeric value of a base-10 digit sequence (what `int(...)` produces on
the corresponding text). -/
def digitsVal (ds : List (Fin 10)) : Nat :=
  ds.foldl (fun a d => 10 * a + d.val) 0

/-- The marker phrase `W1 X W2 Y W3 Z` — e.g. `Results 1 to 10 of 130` —
with single spaces between the words and the rendered numbers. -/
def phrase (w1 w2 w3 : String) (xs ys zs : List (Fin 10)) : String :=
  ⟨w1.data ++ ' ' :: (renderDigits xs ++ ' ' :: (w2.data ++ ' ' ::
    (renderDigits ys ++ ' ' :: (w3.data ++ ' ' :: renderDigits zs))))⟩

/-- The first character, if any, is not whitespace. -/
def headNotWs : List Char → Prop
  | [] => True
  | c :: _ => c.isWhitespace = false

/-- The first character, if any, is not a digit. -/
def headNotDigit : List Char → Prop
  | [] => True
  | c :: _ => c.isDigit = false

/-- Python's `str(tag)` where `tag` is `soup.find(...)`'s result: the HTML
text of the element, or the string `"None"` when no element was found. -/
def str_of_tag : Option String → String
  | none => "None"
  | some s => s

/-- Shared body of the two total-count parsers
(`_get_page_urls_and_first_page_content` lines 324-329 and
`_get_total_list_items` lines 135-139): `re.search` over `str(result_tag)`,
raising on no match, else `int(results_match.group('total'))` — the third
captured group. -/
def parse_total (toks : List RTok) (result_tag : Option String) :
    Except ScrapeError Nat :=
  match reSearch toks (str_of_tag result_tag).data with
  | none => .error .parseError
  | some caps => .ok (caps.getD 2 0)

/-- Fetch each listed page in turn with the given fetcher, also counting the
fetches performed.  The source dispatches these through a thread pool and
consumes them with `as_completed`, so the real completion order is
nondeterministic; this sequential model fixes submission order, which is
harmless for the claims settled here (they concern the success value as a
multiset-up-to-join, the error outcome, and the success-path fetch count;
on an error the source still runs all submitted futures, so only the
success-path count of this model is quoted in theorems). -/
def fetch_pages (fetch : Nat → Except ScrapeError String) :
    List Nat → Except ScrapeError (List String) × Nat
  | [] => (.ok [], 0)
  | p :: ps =>
    match fetch p with
    | .error e => (.error e, 1)
    | .ok t =>
      let r := fetch_pages fetch ps
      (r.1.map (t :: ·), r.2 + 1)

namespace Cache

/-- The state of one cache entry's backing file:
missing, present but not JSON-decodable, or a decoded
`{expires: ..., object: ...}` structure.  Expiry timestamps are minutes. -/
inductive DiskFile (α : Type) where
  | absent
  | corrupt
  | entry (expires : Nat) (obj : α)
deriving DecidableEq, Repr

/-- `Cache.retrieve` (cache.py lines 54-72): a missing file
(`FileNotFoundError`) yields `None`; an undecodable file
(`json.decoder.JSONDecodeError`) is removed from disk and yields `None`; a
decoded entry yields `None` if its expiry is strictly before now, else the
stored object.  Returns the retrieved value together with the resulting
file state. -/
def retrieve {α : Type} (now : Nat) : DiskFile α → Option α × DiskFile α
  | .absent => (none, .absent)
  | .corrupt => (none, .absent)
  | .entry expires obj =>
    if expires < now then (none, .entry expires obj)
    else (some obj, .entry expires obj)

end Cache

namespace VirtualBrowseTaxonomyEndpoint

/-- `_get_page_content` (endpoints.py lines 348-353): `raise_for_status`,
then the concurrent-session marker check, then return the body. -/
def get_page_content (r : Response) : Except ScrapeError String :=
  if 400 ≤ r.status then .error .transport
  else if strContains r.text sessionMarker then .error .sessionExhausted
  else .ok r.text

/-- The while loop of `_get_page_urls_and_first_page_content`
(endpoints.py lines 330-341): `items_accounted_for = 10; page_num = 2;
while items_accounted_for < total_items: append page_num;
items_accounted_for += RESULT_LIMIT; page_num += 1` with
`RESULT_LIMIT = 10`.  Pages stand for the URLs formatted from them.  The
loop terminates because `items_accounted_for` grows by 10 each iteration;
`fuel` makes that termination structural, and `fuel = total` iterations are
always enough (`plan_loop_eq` below characterises the loop for every
sufficient fuel). -/
def plan_loop (fuel total items page : Nat) : List Nat :=
  match fuel with
  | 0 => []
  | f + 1 =>
    if items < total then page :: plan_loop f total (items + 10) (page + 1)
    else []

/-- The page-number list behind `urls_for_page_2+`. -/
def planPages (total : Nat) : List Nat := plan_loop total total 10 2

/-- `_get_page_urls_and_first_page_content` (endpoints.py lines 313-346):
fetch page 1, parse the total out of the `result-count` div with the
single-language `RESULTS` pattern, and build the page-2+ plan.  `divOf`
models `str(BeautifulSoup(text).find('div', class_='result-count'))`
(with `none` for a missing element). -/
def get_page_urls_and_first_page_content (pages : Nat → Response)
    (divOf : String → Option String) :
    Except ScrapeError (List Nat × String) :=
  match get_page_content (pages 1) with
  | .error e => .error e
  | .ok response_text =>
    match parse_total RESULTS_ep (divOf response_text) with
    | .error e => .error e
    | .ok total_items => .ok (planPages total_items, response_text)

/-- `_scrape_items_from_frontend` (endpoints.py lines 298-311): the
two-phase scrape.  `itemsOf` models the registered soup parser applied to a
page body.  The first page's already-fetched text is reused (the
`lambda: first_page_contents` future), not fetched again.  Returns the
aggregate together with the number of page fetches performed. -/
def scrape_items_from_frontend {α : Type} (pages : Nat → Response)
    (divOf : String → Option String) (itemsOf : String → List α) :
    Except ScrapeError (List α) × Nat :=
  match get_page_urls_and_first_page_content pages divOf with
  | .error e => (.error e, 1)
  | .ok (urls, first_page_contents) =>
    let fp := fetch_pages (fun p => get_page_content (pages p)) urls
    match fp.1 with
    | .error e => (.error e, 1 + fp.2)
    | .ok texts =>
      (.ok (((texts ++ [first_page_contents]).map itemsOf).flatten), 1 + fp.2)

/-- The mutable state a `call` touches: the cache entry stored under this
endpoint's key, and a count of page fetches performed so far (network
activity instrumentation; the source performs a fetch exactly where this
model increments the counter). -/
structure CallState (α : Type) where
  entry : Cache.DiskFile (List α)
  fetches : Nat
deriving DecidableEq, Repr

/-- `call` (endpoints.py lines 275-286).  `hours`/`minutes` are the cache
TTL; `registered` is `object_id in virtual_taxonomies`; `now` is the current
time in minutes.  Mirrors the source order: the zero-TTL guard, the registry
guard, `cache.retrieve` (whose result is tested by Python truthiness, so an
empty retrieved list falls through to a scrape), then scrape and
`cache.store` (expiry `now + timedelta(hours, minutes)`). -/
def call {α : Type} (hours minutes : Nat) (registered : Bool) (now : Nat)
    (pages : Nat → Response) (divOf : String → Option String)
    (itemsOf : String → List α) (st : CallState α) :
    Except ScrapeError (List α) × CallState α :=
  if hours + minutes = 0 then (.error .cachingDisabled, st)
  else if registered = false then (.error .unregistered, st)
  else
    let rd := Cache.retrieve now st.entry
    let doScrape : Unit → Except ScrapeError (List α) × CallState α := fun _ =>
      let sres := scrape_items_from_frontend pages divOf itemsOf
      match sres.1 with
      | .error e => (.error e, ⟨rd.2, st.fetches + sres.2⟩)
      | .ok all_items =>
        (.ok all_items,
         ⟨Cache.DiskFile.entry (now + 60 * hours + minutes) all_items,
          st.fetches + sres.2⟩)
    match rd.1 with
    | some cached_items =>
      if cached_items.isEmpty then doScrape ()
      else (.ok cached_items, ⟨rd.2, st.fetches⟩)
    | none => doScrape ()

end VirtualBrowseTaxonomyEndpoint

namespace VirtualBaseModel

/-- models/base.py line 41. -/
def RESULT_LIMIT : Nat := 10

/-- models/base.py line 42: `max_workers` passed to the thread pool. -/
def MAX_THREAD_POOL_EXECUTORS : Nat := 5

/-- models/base.py line 43. -/
def ACCEPTED_LANGUAGES : List String := ["en", "fr", "es", "nl", "pt"]

/-- `_get_page_content` (models/base.py lines 142-152): `atom.get` (which
calls `raise_for_status`) and return `response.text`.  Note: unlike the
endpoints.py fetcher, this one performs no body inspection. -/
def get_page_content (r : Response) : Except ScrapeError String :=
  if 400 ≤ r.status then .error .transport
  else .ok r.text

/-- `_get_total_list_items` (models/base.py lines 117-140): fetch the page,
find the `result-count` div, search it with the four-language `RESULTS`
pattern, return the `total` group. -/
def get_total_list_items (divOf : String → Option String) (r : Response) :
    Except ScrapeError Nat :=
  match get_page_content r with
  | .error e => .error e
  | .ok response_text => parse_total RESULTS_base (divOf response_text)

/-- Python's `range(start, stop, step)` for a positive step. -/
def pyRange (start stop step : Nat) : List Nat :=
  List.range' start ((stop - start + step - 1) / step) step

/-- The page-number list behind `_enumerate_list_urls` (models/base.py
lines 102-115): the first page's URL followed by one URL per
`enumerate(range(RESULT_LIMIT, total_items, RESULT_LIMIT), 2)` index. -/
def enumerate_list_pages (total_items : Nat) : List Nat :=
  1 :: ((pyRange RESULT_LIMIT total_items RESULT_LIMIT).enumFrom 2).map Prod.fst

/-- `get_list_from_ui` (models/base.py lines 68-100): validate the language
and the `{page}`/`{limit}` placeholders, enumerate the list URLs (which
fetches page 1 for the total), then fetch every enumerated URL — including
page 1 a second time — and parse each body.  Returns the aggregate and the
number of page fetches performed. -/
def get_list_from_ui {α : Type} (path sf_culture : String)
    (pages : Nat → Response) (divOf : String → Option String)
    (itemsOf : String → List α) :
    Except ScrapeError (List α) × Nat :=
  if (ACCEPTED_LANGUAGES.contains sf_culture) = false then
    (.error .badLanguage, 0)
  else if (strContains path "\x7bpage\x7d") = false then
    (.error .badPath, 0)
  else if (strContains path "\x7blimit\x7d") = false then
    (.error .badPath, 0)
  else
    match get_total_list_items divOf (pages 1) with
    | .error e => (.error e, 1)
    | .ok total_items =>
      let fp := fetch_pages (fun p => get_page_content (pages p))
        (enumerate_list_pages total_items)
      match fp.1 with
      | .error e => (.error e, 1 + fp.2)
      | .ok texts => (.ok ((texts.map itemsOf).flatten), 1 + fp.2)

end VirtualBaseModel

/-! ### Concrete oracle instances used by counterexamples and witnesses

A tiny concrete remote: every page returns HTTP 200 with body `"page-body"`;
the `result-count` div of any page reads `Results 0 to 0 of 0` (a reported
total of zero); `itemsNone` is a soup parser yielding no records and
`itemsOne` one yielding a single record per page. -/

def pagesZero : Nat → Response := fun _ => ⟨200, "page-body"⟩

def divZero : String → Option String := fun _ => some "Results 0 to 0 of 0"

def itemsNone : String → List String := fun _ => []

def itemsOne : String → List String := fun _ => ["item"]

/-- A 200-status body containing the concurrent-session-exhaustion marker. -/
def badBody : String :=
  "Error: maximum number of concurrent user sessions was reached"

namespace BrowseInformationObjectEndpoint

/-! ### Executable model of `hashlib.md5` and `json.dumps`

`BrowseInformationObjectEndpoint._get_cache_id` (endpoints.py lines 148-162)
computes `md5(json.dumps({**sq, **sf, **so, **filters}).encode('utf-8'))`.
To settle cache-key claims the hash must actually be computed, so MD5
(RFC 1321) is implemented below over `Nat` with explicit `% 2^32`
reductions; `md5hex_d41d` and `md5hex_abc` check it against the standard
test vectors.  `json.dumps` is modelled for dicts mapping strings to
strings whose characters need no JSON escaping (every input appearing in
the theorems is plain ASCII of that shape), with its default separators:
`{"k": "v", "k2": "v2"}` in dict iteration order — CPython's `json.dumps`
does not sort keys unless `sort_keys=True` is passed, which the source does
not do.  `encode('utf-8')` is byte-identity on that ASCII content. -/

/-- 2^32. -/
def M32 : Nat := 4294967296

/-- Rotate a 32-bit word left by `n` (for `x < M32`, `n ≤ 32`). -/
def rotl32 (x n : Nat) : Nat := ((x <<< n) % M32) + (x >>> (32 - n))

/-- The 64 MD5 sine-derived constants. -/
def md5K : List Nat :=
  [0xd76aa478, 0xe8c7b756, 0x242070db, 0xc1bdceee,
   0xf57c0faf, 0x4787c62a, 0xa8304613, 0xfd469501,
   0x698098d8, 0x8b44f7af, 0xffff5bb1, 0x895cd7be,
   0x6b901122, 0xfd987193, 0xa679438e, 0x49b40821,
   0xf61e2562, 0xc040b340, 0x265e5a51, 0xe9b6c7aa,
   0xd62f105d, 0x02441453, 0xd8a1e681, 0xe7d3fbc8,
   0x21e1cde6, 0xc33707d6, 0xf4d50d87, 0x455a14ed,
   0xa9e3e905, 0xfcefa3f8, 0x676f02d9, 0x8d2a4c8a,
   0xfffa3942, 0x8771f681, 0x6d9d6122, 0xfde5380c,
   0xa4beea44, 0x4bdecfa9, 0xf6bb4b60, 0xbebfbc70,
   0x289b7ec6, 0xeaa127fa, 0xd4ef3085, 0x04881d05,
   0xd9d4d039, 0xe6db99e5, 0x1fa27cf8, 0xc4ac5665,
   0xf4292244, 0x432aff97, 0xab9423a7, 0xfc93a039,
   0x655b59c3, 0x8f0ccc92, 0xffeff47d, 0x85845dd1,
   0x6fa87e4f, 0xfe2ce6e0, 0xa3014314, 0x4e0811a1,
   0xf7537e82, 0xbd3af235, 0x2ad7d2bb, 0xeb86d391]

/-- The 64 MD5 per-round shift amounts. -/
def md5S : List Nat :=
  [7, 12, 17, 22, 7, 12, 17, 22, 7, 12, 17, 22, 7, 12, 17, 22,
   5, 9, 14, 20, 5, 9, 14, 20, 5, 9, 14, 20, 5, 9, 14, 20,
   4, 11, 16, 23, 4, 11, 16, 23, 4, 11, 16, 23, 4, 11, 16, 23,
   6, 10, 15, 21, 6, 10, 15, 21, 6, 10, 15, 21, 6, 10, 15, 21]

/-- One MD5 round on the running state `(a, b, c, d)`. -/
def md5Round (Mw : List Nat) (st : Nat × Nat × Nat × Nat) (i : Nat) :
    Nat × Nat × Nat × Nat :=
  let a := st.1
  let b := st.2.1
  let c := st.2.2.1
  let d := st.2.2.2
  let mask := M32 - 1
  let f :=
    if i < 16 then (b &&& c) ||| ((b ^^^ mask) &&& d)
    else if i < 32 then (d &&& b) ||| ((d ^^^ mask) &&& c)
    else if i < 48 then b ^^^ c ^^^ d
    else c ^^^ (b ||| (d ^^^ mask))
  let g :=
    if i < 16 then i
    else if i < 32 then (5 * i + 1) % 16
    else if i < 48 then (3 * i + 5) % 16
    else (7 * i) % 16
  let tmp := (f + a + md5K.getD i 0 + Mw.getD g 0) % M32
  (d, (b + rotl32 tmp (md5S.getD i 0)) % M32, b, c)

/-- Process one 16-word chunk. -/
def md5Chunk (h : Nat × Nat × Nat × Nat) (Mw : List Nat) :
    Nat × Nat × Nat × Nat :=
  let r := (List.range 64).foldl (md5Round Mw) h
  ((h.1 + r.1) % M32, (h.2.1 + r.2.1) % M32,
   (h.2.2.1 + r.2.2.1) % M32, (h.2.2.2 + r.2.2.2) % M32)

/-- Little-endian byte rendering of `n` on `count` bytes. -/
def leBytes (n count : Nat) : List Nat :=
  match count with
  | 0 => []
  | c + 1 => (n % 256) :: leBytes (n / 256) c

/-- MD5 padding: `0x80`, zeros to 56 mod 64 bytes, then the bit length on
8 little-endian bytes. -/
def md5Pad (msg : List Nat) : List Nat :=
  msg ++ 128 :: (List.replicate ((119 - msg.length % 64) % 64) 0 ++
    leBytes (8 * msg.length) 8)

/-- Group bytes into 32-bit little-endian words. -/
def toLEWords : List Nat → List Nat
  | b0 :: b1 :: b2 :: b3 :: rest =>
    (b0 + 256 * b1 + 65536 * b2 + 16777216 * b3) :: toLEWords rest
  | _ => []

/-- Run the chunks: accumulate 16 words, process, continue. -/
def md5Blocks (h : Nat × Nat × Nat × Nat) (buf ws : List Nat) :
    Nat × Nat × Nat × Nat :=
  match ws with
  | [] => h
  | w :: rest =>
    if (buf ++ [w]).length = 16 then md5Blocks (md5Chunk h (buf ++ [w])) [] rest
    else md5Blocks h (buf ++ [w]) rest

/-- MD5 of a byte string, as the four state words. -/
def md5 (msg : List Nat) : Nat × Nat × Nat × Nat :=
  md5Blocks (0x67452301, 0xefcdab89, 0x98badcfe, 0x10325476) []
    (toLEWords (md5Pad msg))

/-- A lowercase hex digit. -/
def hexChar (n : Nat) : Char :=
  if n < 10 then Char.ofNat (48 + n) else Char.ofNat (87 + n)

/-- Two lowercase hex digits of a byte. -/
def byteHex (b : Nat) : List Char := [hexChar (b / 16), hexChar (b % 16)]

/-- `hashlib.md5(...).hexdigest()`: the digest bytes (state words rendered
little-endian) in lowercase hex. -/
def md5hex (msg : List Nat) : String :=
  let h := md5 msg
  ⟨((leBytes h.1 4 ++ leBytes h.2.1 4 ++ leBytes h.2.2.1 4 ++
     leBytes h.2.2.2 4).map byteHex).flatten⟩

/-- `str.encode('utf-8')` restricted to ASCII content, where it is the
identity on code points. -/
def encode_utf8 (s : String) : List Nat := s.data.map Char.toNat

/-- `json.dumps` on a string-to-string dict (as its iteration-ordered pair
list) whose characters need no escaping, with CPython's default separators
and no key sorting. -/
def json_dumps (pairs : List (String × String)) : String :=
  "\x7b" ++ String.intercalate ", "
    (pairs.map (fun kv => "\"" ++ kv.1 ++ "\": \"" ++ kv.2 ++ "\"")) ++
  "\x7d"

/-- Python dict assignment `d[key] = value`: overwrite in place if the key
exists, else append (dicts iterate in insertion order). -/
def dictSet (d : List (String × String)) (key value : String) :
    List (String × String) :=
  if d.any (fun kv => kv.1 == key) then
    d.map (fun kv => if kv.1 == key then (kv.1, value) else kv)
  else d ++ [(key, value)]

/-- The dict-merge expression `{**sq, **sf, **so, **filters}`. -/
def dictMerge (ds : List (List (String × String))) :
    List (String × String) :=
  ds.foldl (fun acc d => d.foldl (fun a kv => dictSet a kv.1 kv.2) acc) []

/-- `_get_cache_id` (endpoints.py lines 148-162): the MD5 of the JSON dump
of the merged parameter dict, under the `browse-objects_` prefix. -/
def get_cache_id (sq sf so filters : List (String × String)) : String :=
  "browse-objects_" ++
    md5hex (encode_utf8 (json_dumps (dictMerge [sq, sf, so, filters])))

end BrowseInformationObjectEndpoint

/-! ## Theorems -/


theorem plan_loop_eq (fuel total items page : Nat)
    (h : total - items ≤ 10 * fuel) :
    VirtualBrowseTaxonomyEndpoint.plan_loop fuel total items page =
      List.range' page ((total - items + 9) / 10) := by
  induction fuel generalizing items page with
  | zero =>
    have hz : (total - items + 9) / 10 = 0 := by omega
    simp [VirtualBrowseTaxonomyEndpoint.plan_loop, hz]
  | succ f ih =>
    unfold VirtualBrowseTaxonomyEndpoint.plan_loop
    by_cases hlt : items < total
    · rw [if_pos hlt, ih (items + 10) (page + 1) (by omega)]
      have hd : (total - items + 9) / 10 =
          (total - (items + 10) + 9) / 10 + 1 := by omega
      rw [hd, List.range'_succ]
    · rw [if_neg hlt]
      have hz : (total - items + 9) / 10 = 0 := by omega
      simp [hz]

theorem planPages_eq (total : Nat) :
    VirtualBrowseTaxonomyEndpoint.planPages total =
      List.range' 2 ((total + 9) / 10 - 1) := by
  unfold VirtualBrowseTaxonomyEndpoint.planPages
  rw [plan_loop_eq total total 10 2 (by omega)]
  congr 1
  omega

theorem enumerate_list_pages_eq (total : Nat) :
    VirtualBaseModel.enumerate_list_pages total =
      1 :: List.range' 2 ((total + 9) / 10 - 1) := by
  unfold VirtualBaseModel.enumerate_list_pages VirtualBaseModel.pyRange
  rw [List.enumFrom_map_fst, List.length_range']
  congr 2
  simp [VirtualBaseModel.RESULT_LIMIT]
  omega

/-- C1: with the fixed page size L = 10, the pagination plan computed before
the fan-out is exactly the pages `2, 3, …, ⌈T/10⌉` in increasing order (in
both the endpoints.py and the models/base.py variant, the latter prepending
the already-fetched page 1); its length is `max (0, ⌈T/10⌉ - 1)`; it is
empty whenever `T ≤ 10`; it is `[2, 3]` for `T = 25`; and together with
page 1 the planned pages are pairwise distinct and cover each of the `T`
reported item positions exactly once (item `i` lies in the 10-item window
of page `i/10 + 1` and of no other planned page). -/
theorem c1_pagination_plan (T : Nat) :
    VirtualBrowseTaxonomyEndpoint.planPages T =
      List.range' 2 ((T + 9) / 10 - 1) ∧
    VirtualBaseModel.enumerate_list_pages T =
      1 :: VirtualBrowseTaxonomyEndpoint.planPages T ∧
    (VirtualBrowseTaxonomyEndpoint.planPages T).length = (T + 9) / 10 - 1 ∧
    (((VirtualBrowseTaxonomyEndpoint.planPages T).length : ℤ) =
      max 0 ((T + 9 : ℤ) / 10 - 1)) ∧
    (T ≤ 10 → VirtualBrowseTaxonomyEndpoint.planPages T = []) ∧
    VirtualBrowseTaxonomyEndpoint.planPages 25 = [2, 3] ∧
    (1 :: VirtualBrowseTaxonomyEndpoint.planPages T).Nodup ∧
    (∀ i, i < T →
      (i / 10 + 1) ∈ 1 :: VirtualBrowseTaxonomyEndpoint.planPages T ∧
      ∀ p ∈ 1 :: VirtualBrowseTaxonomyEndpoint.planPages T,
        (p - 1) * 10 ≤ i → i < p * 10 → p = i / 10 + 1) := by
  rw [planPages_eq, enumerate_list_pages_eq, planPages_eq]
  refine ⟨rfl, rfl, List.length_range' .., by rw [List.length_range']; omega,
    ?_, by decide, ?_, ?_⟩
  · intro h
    have : (T + 9) / 10 - 1 = 0 := by omega
    simp [this]
  · refine List.Nodup.cons ?_ (by apply List.nodup_range'; norm_num)
    intro h
    rw [List.mem_range'_1] at h
    omega
  · intro i hi
    constructor
    · rcases Nat.lt_or_ge i 10 with h | h
      · have : i / 10 + 1 = 1 := by omega
        simp [this]
      · refine List.mem_cons_of_mem _ ?_
        rw [List.mem_range'_1]
        omega
    · intro p hp hlo hhi
      rcases List.mem_cons.mp hp with h | h
      · omega
      · rw [List.mem_range'_1] at h
        omega

/-- Witness for C1 at `T = 25`, `i = 24`: the plan is `[2,3]` and item 24
belongs to planned page `24/10 + 1 = 3`. -/
theorem c1_pagination_plan_witness :
    VirtualBrowseTaxonomyEndpoint.planPages 25 = [2, 3] ∧
    (24 / 10 + 1) ∈ 1 :: VirtualBrowseTaxonomyEndpoint.planPages 25 := by
  refine ⟨(c1_pagination_plan 25).2.2.2.2.2.1, ?_⟩
  exact (((c1_pagination_plan 25).2.2.2.2.2.2.2 24 (by decide)).1)


/-- C9: `Cache.retrieve` never returns stale or malformed data.  A missing
file yields `none` (and stays absent); an undecodable file yields `none` and
is removed; an entry whose expiry is strictly before the current time yields
`none`; and whenever `retrieve` returns a value, the backing file was a
decoded entry holding exactly that object with expiry at or after now. -/
theorem c9_cache_retrieve_never_stale (α : Type) (now : Nat)
    (f : Cache.DiskFile α) :
    Cache.retrieve now (Cache.DiskFile.absent : Cache.DiskFile α) =
      (none, Cache.DiskFile.absent) ∧
    Cache.retrieve now (Cache.DiskFile.corrupt : Cache.DiskFile α) =
      (none, Cache.DiskFile.absent) ∧
    (∀ (e : Nat) (o : α), e < now →
      Cache.retrieve now (Cache.DiskFile.entry e o) =
        (none, Cache.DiskFile.entry e o)) ∧
    (∀ v : α, (Cache.retrieve now f).1 = some v →
      ∃ e, f = Cache.DiskFile.entry e v ∧ now ≤ e) := by
  refine ⟨rfl, rfl, ?_, ?_⟩
  · intro e o h
    simp [Cache.retrieve, h]
  · intro v hv
    cases f with
    | absent => simp [Cache.retrieve] at hv
    | corrupt => simp [Cache.retrieve] at hv
    | entry e o =>
      by_cases h : e < now
      · simp [Cache.retrieve, h] at hv
      · simp [Cache.retrieve, h] at hv
        exact ⟨e, by rw [hv], by omega⟩

/-- Witness for C9: an expired entry (expiry 3, now 5) yields `none` and is
left in place. -/
theorem c9_cache_retrieve_never_stale_witness :
    Cache.retrieve 5 (Cache.DiskFile.entry 3 (0 : Nat)) =
      (none, Cache.DiskFile.entry 3 0) := by
  exact (c9_cache_retrieve_never_stale Nat 5 Cache.DiskFile.absent).2.2.1
    3 0 (by decide)

/-- C5: both configuration errors are rejected before any network activity.
A zero-TTL call (`cache_hours + cache_minutes == 0`) fails with the
caching-disabled `ValueError` regardless of descriptor validity (the
`registered` flag is arbitrary), and a nonzero-TTL call for an unregistered
identifier fails with the unregistered-endpoint `ValueError`; in both cases
the returned state is exactly the input state, so the fetch counter is
unchanged — no network request was attempted. -/
theorem c5_config_errors_before_network {α : Type} (hours minutes : Nat)
    (registered : Bool) (now : Nat) (pages : Nat → Response)
    (divOf : String → Option String) (itemsOf : String → List α)
    (st : VirtualBrowseTaxonomyEndpoint.CallState α) :
    (hours + minutes = 0 →
      VirtualBrowseTaxonomyEndpoint.call hours minutes registered now pages
          divOf itemsOf st =
        (.error .cachingDisabled, st)) ∧
    (hours + minutes ≠ 0 → registered = false →
      VirtualBrowseTaxonomyEndpoint.call hours minutes registered now pages
          divOf itemsOf st =
        (.error .unregistered, st)) := by
  constructor
  · intro h
    simp [VirtualBrowseTaxonomyEndpoint.call, h]
  · intro h hreg
    simp [VirtualBrowseTaxonomyEndpoint.call, h, hreg]

/-- Witness for C5: a zero-TTL call against a valid descriptor and a 1-hour
call against an unregistered one both fail in place with no fetch. -/
theorem c5_config_errors_before_network_witness :
    VirtualBrowseTaxonomyEndpoint.call 0 0 true 0 pagesZero divZero itemsNone
      ⟨Cache.DiskFile.absent, 0⟩ =
      (.error .cachingDisabled, ⟨Cache.DiskFile.absent, 0⟩) ∧
    VirtualBrowseTaxonomyEndpoint.call 1 0 false 0 pagesZero divZero itemsNone
      ⟨Cache.DiskFile.absent, 0⟩ =
      (.error .unregistered, ⟨Cache.DiskFile.absent, 0⟩) := by
  refine ⟨(c5_config_errors_before_network 0 0 true 0 pagesZero divZero
    itemsNone ⟨Cache.DiskFile.absent, 0⟩).1 (by decide), ?_⟩
  exact (c5_config_errors_before_network 1 0 false 0 pagesZero divZero
    itemsNone ⟨Cache.DiskFile.absent, 0⟩).2 (by decide) rfl

/-- C10: `get_list_from_ui` rejects an unsupported language or a path
template missing the `page` or `limit` placeholder with a `ValueError`
before any network request: the fetch count of the result is 0.  The
language check runs first; both failures are `ValueError`s in the source
(`badLanguage`, `badPath`). -/
theorem c10_get_list_from_ui_validation {α : Type} (path sf_culture : String)
    (pages : Nat → Response) (divOf : String → Option String)
    (itemsOf : String → List α) :
    VirtualBaseModel.ACCEPTED_LANGUAGES = ["en", "fr", "es", "nl", "pt"] ∧
    ((VirtualBaseModel.ACCEPTED_LANGUAGES.contains sf_culture) = false →
      VirtualBaseModel.get_list_from_ui path sf_culture pages divOf itemsOf =
        (.error .badLanguage, 0)) ∧
    ((VirtualBaseModel.ACCEPTED_LANGUAGES.contains sf_culture) = true →
      strContains path "\x7bpage\x7d" = false →
      VirtualBaseModel.get_list_from_ui path sf_culture pages divOf itemsOf =
        (.error .badPath, 0)) ∧
    ((VirtualBaseModel.ACCEPTED_LANGUAGES.contains sf_culture) = true →
      strContains path "\x7bpage\x7d" = true →
      strContains path "\x7blimit\x7d" = false →
      VirtualBaseModel.get_list_from_ui path sf_culture pages divOf itemsOf =
        (.error .badPath, 0)) := by
  refine ⟨rfl, ?_, ?_, ?_⟩
  · intro h
    unfold VirtualBaseModel.get_list_from_ui
    rw [if_pos h]
  · intro h hp
    unfold VirtualBaseModel.get_list_from_ui
    rw [if_neg (by rw [h]; simp), if_pos hp]
  · intro h hp hl
    unfold VirtualBaseModel.get_list_from_ui
    rw [if_neg (by rw [h]; simp), if_neg (by rw [hp]; simp), if_pos hl]

/-- Witness for C10: a German-language request and a path without a `page`
placeholder are both rejected with zero fetches. -/
theorem c10_get_list_from_ui_validation_witness :
    VirtualBaseModel.get_list_from_ui "/actor/browse?page=\x7bpage\x7d&limit=\x7blimit\x7d"
      "de" pagesZero divZero itemsNone = (.error .badLanguage, 0) ∧
    VirtualBaseModel.get_list_from_ui "/actor/browse" "en" pagesZero divZero
      itemsNone = (.error .badPath, 0) := by
  refine ⟨(c10_get_list_from_ui_validation _ "de" pagesZero divZero
    itemsNone).2.1 (by decide), ?_⟩
  exact (c10_get_list_from_ui_validation "/actor/browse" "en" pagesZero
    divZero itemsNone).2.2.1 (by decide) (by decide)

theorem ep_get_page_content_ok_inv (r : Response) (t : String)
    (h : VirtualBrowseTaxonomyEndpoint.get_page_content r = .ok t) :
    t = r.text ∧ r.status < 400 ∧ strContains r.text sessionMarker = false := by
  unfold VirtualBrowseTaxonomyEndpoint.get_page_content at h
  by_cases hs : 400 ≤ r.status
  · rw [if_pos hs] at h
    exact absurd h (by simp)
  · rw [if_neg hs] at h
    by_cases hm : strContains r.text sessionMarker
    · rw [if_pos hm] at h
      exact absurd h (by simp)
    · rw [if_neg hm] at h
      exact ⟨(Except.ok.inj h).symm, by omega, by simp [hm]⟩

theorem fetch_pages_ok_inv (fetch : Nat → Except ScrapeError String)
    (ps : List Nat) (ts : List String) (n : Nat)
    (h : fetch_pages fetch ps = (.ok ts, n)) :
    ∀ p ∈ ps, ∃ t, fetch p = .ok t := by
  induction ps generalizing ts n with
  | nil => intro p hp; cases hp
  | cons q qs ih =>
    intro p hp
    unfold fetch_pages at h
    cases hq : fetch q with
    | error e => rw [hq] at h; exact absurd h (by simp)
    | ok t =>
      rw [hq] at h
      rcases List.mem_cons.mp hp with rfl | hmem
      · exact ⟨t, hq⟩
      · cases hf : (fetch_pages fetch qs).1 with
        | error e => rw [Prod.ext_iff] at h; simp [hf, Except.map] at h
        | ok ts' =>
          refine ih ts' (fetch_pages fetch qs).2 ?_ p hmem
          exact Prod.ext hf rfl

/-- Counterexample to C2: the `models/base.py` variant of the page fetcher
(`VirtualBaseModel._get_page_content`, lines 142-152) performs no body
inspection at all.  On a 200-status response whose body contains the
concurrent-session-exhaustion marker it returns the body as valid content
instead of raising a session-exhausted error, contradicting the claim for
pages fetched through that virtual-scrape path. -/
theorem c2_counterexample :
    strContains badBody sessionMarker = true ∧
    VirtualBaseModel.get_page_content ⟨200, badBody⟩ = .ok badBody := by
  exact ⟨by decide, rfl⟩

/-- C2 amended: in the `endpoints.py` variant the property holds — a fetch
whose response has a non-error status and a marker-containing body raises
the distinct session-exhausted `ConnectionError` instead of returning the
body, and consequently a scrape that returns successfully never saw the
marker on any page it fetched (first page or planned page).  The
`models/base.py` variant's fetcher, by contrast, performs no body
inspection (see the counterexample). -/
theorem c2_session_exhaustion_amended {α : Type} (pages : Nat → Response)
    (divOf : String → Option String) (itemsOf : String → List α)
    (items : List α) (n : Nat) :
    (∀ r : Response, r.status < 400 →
      strContains r.text sessionMarker = true →
      VirtualBrowseTaxonomyEndpoint.get_page_content r =
        .error .sessionExhausted) ∧
    (VirtualBrowseTaxonomyEndpoint.scrape_items_from_frontend pages divOf
        itemsOf = (.ok items, n) →
      strContains (pages 1).text sessionMarker = false ∧
      ∀ total, parse_total RESULTS_ep (divOf (pages 1).text) = .ok total →
        ∀ p ∈ VirtualBrowseTaxonomyEndpoint.planPages total,
          strContains (pages p).text sessionMarker = false) := by
  constructor
  · intro r hs hm
    unfold VirtualBrowseTaxonomyEndpoint.get_page_content
    rw [if_neg (by omega), if_pos hm]
  · intro h
    unfold VirtualBrowseTaxonomyEndpoint.scrape_items_from_frontend at h
    cases hg : VirtualBrowseTaxonomyEndpoint.get_page_urls_and_first_page_content
        pages divOf with
    | error e => rw [hg] at h; exact absurd h (by simp)
    | ok pr =>
      rw [hg] at h
      unfold VirtualBrowseTaxonomyEndpoint.get_page_urls_and_first_page_content
        at hg
      cases h1 : VirtualBrowseTaxonomyEndpoint.get_page_content (pages 1) with
      | error e => rw [h1] at hg; exact absurd hg (by simp)
      | ok t1 =>
        rw [h1] at hg
        dsimp only at hg
        obtain ⟨ht, -, hnm⟩ := ep_get_page_content_ok_inv (pages 1) t1 h1
        cases hp : parse_total RESULTS_ep (divOf t1) with
        | error e => rw [hp] at hg; exact absurd hg (by simp)
        | ok total =>
          rw [hp] at hg
          have hpr : pr = (VirtualBrowseTaxonomyEndpoint.planPages total, t1) :=
            (Except.ok.inj hg).symm
          subst hpr
          subst ht
          dsimp only at h
          refine ⟨hnm, ?_⟩
          intro total' hpt p hpmem
          rw [hp] at hpt
          have htot : total' = total := (Except.ok.inj hpt).symm
          subst htot
          cases hf : (fetch_pages
              (fun q => VirtualBrowseTaxonomyEndpoint.get_page_content (pages q))
              (VirtualBrowseTaxonomyEndpoint.planPages total')).1 with
          | error e => rw [hf] at h; exact absurd h (by simp)
          | ok ts =>
            obtain ⟨tp, htp⟩ := fetch_pages_ok_inv _ _ ts _ (Prod.ext hf rfl)
              p hpmem
            exact (ep_get_page_content_ok_inv (pages p) tp htp).2.2

/-- Witness for C2 amended: the endpoints.py fetcher rejects the concrete
marker-containing 200 response with the session-exhausted error. -/
theorem c2_session_exhaustion_amended_witness :
    VirtualBrowseTaxonomyEndpoint.get_page_content ⟨200, badBody⟩ =
      .error .sessionExhausted := by
  exact (c2_session_exhaustion_amended pagesZero divZero itemsNone [] 0).1
    ⟨200, badBody⟩ (by decide) (by decide)

/-- Counterexample to C7: in the `models/base.py` variant a zero-total
scrape performs two page fetches, not one — `_enumerate_list_urls` fetches
page 1 to read the total, and `get_list_from_ui` then fetches the first
URL of the returned list (page 1 again) in the fan-out instead of reusing
the already-fetched content.  Concretely, against a remote reporting
`Results 0 to 0 of 0` the call returns the empty aggregate with a fetch
count of 2. -/
theorem c7_counterexample :
    VirtualBaseModel.get_list_from_ui
      "/x?page=\x7bpage\x7d&limit=\x7blimit\x7d" "en" pagesZero divZero
      itemsNone = (.ok ([] : List String), 2) := by
  rfl

/-- C7 amended: for a reported total of zero the pagination plan is empty in
both variants.  The endpoints.py scrape returns the empty aggregate after
exactly one page fetch, reusing the first page's content for parsing; the
models/base.py scrape also returns the empty aggregate but fetches the
first page twice (once for the count, once in the fan-out), for a total of
two fetches. -/
theorem c7_zero_total_amended {α : Type} (pages : Nat → Response)
    (divOf : String → Option String) (itemsOf : String → List α)
    (path sf_culture : String) (t1 : String)
    (h1 : VirtualBrowseTaxonomyEndpoint.get_page_content (pages 1) = .ok t1)
    (hp : parse_total RESULTS_ep (divOf t1) = .ok 0)
    (hi : itemsOf t1 = []) :
    VirtualBrowseTaxonomyEndpoint.planPages 0 = [] ∧
    VirtualBrowseTaxonomyEndpoint.scrape_items_from_frontend pages divOf
      itemsOf = (.ok ([] : List α), 1) ∧
    VirtualBaseModel.enumerate_list_pages 0 = [1] ∧
    (VirtualBaseModel.ACCEPTED_LANGUAGES.contains sf_culture = true →
      strContains path "\x7bpage\x7d" = true →
      strContains path "\x7blimit\x7d" = true →
      VirtualBaseModel.get_page_content (pages 1) = .ok t1 →
      parse_total RESULTS_base (divOf t1) = .ok 0 →
      VirtualBaseModel.get_list_from_ui path sf_culture pages divOf itemsOf =
        (.ok ([] : List α), 2)) := by
  refine ⟨rfl, ?_, rfl, ?_⟩
  · unfold VirtualBrowseTaxonomyEndpoint.scrape_items_from_frontend
      VirtualBrowseTaxonomyEndpoint.get_page_urls_and_first_page_content
    rw [h1]
    dsimp only
    rw [hp]
    dsimp only
    have hplan : VirtualBrowseTaxonomyEndpoint.planPages 0 = [] := rfl
    rw [hplan]
    simp [fetch_pages, hi]
  · intro hlang hpg hlim hm1 hpb
    unfold VirtualBaseModel.get_list_from_ui
    rw [if_neg (by rw [hlang]; simp), if_neg (by rw [hpg]; simp),
      if_neg (by rw [hlim]; simp)]
    unfold VirtualBaseModel.get_total_list_items
    rw [hm1]
    dsimp only
    rw [hpb]
    dsimp only
    have hpages : VirtualBaseModel.enumerate_list_pages 0 = [1] := rfl
    rw [hpages]
    simp [fetch_pages, hm1, hi, Except.map]

/-- Witness for C7 amended: the endpoints.py scrape of the concrete
zero-total remote returns the empty aggregate with exactly one fetch. -/
theorem c7_zero_total_amended_witness :
    VirtualBrowseTaxonomyEndpoint.scrape_items_from_frontend pagesZero divZero
      itemsNone = (.ok ([] : List String), 1) :=
  (c7_zero_total_amended pagesZero divZero itemsNone "p" "en" "page-body"
    (by rfl) (by rfl) (by rfl)).2.1

theorem call_ok_entry {α : Type} (hours minutes now : Nat)
    (pages : Nat → Response) (divOf : String → Option String)
    (itemsOf : String → List α)
    (st st' : VirtualBrowseTaxonomyEndpoint.CallState α) (items : List α)
    (httl : ¬hours + minutes = 0)
    (h : VirtualBrowseTaxonomyEndpoint.call hours minutes true now pages divOf
        itemsOf st = (.ok items, st')) :
    ∃ e, st'.entry = Cache.DiskFile.entry e items := by
  unfold VirtualBrowseTaxonomyEndpoint.call at h
  rw [if_neg httl, if_neg (by simp)] at h
  have hscr : ∀ d : Cache.DiskFile (List α),
      (let sres := VirtualBrowseTaxonomyEndpoint.scrape_items_from_frontend
          pages divOf itemsOf
       match sres.1 with
       | .error e => ((.error e : Except ScrapeError (List α)),
           (⟨d, st.fetches + sres.2⟩ :
             VirtualBrowseTaxonomyEndpoint.CallState α))
       | .ok all_items => (.ok all_items,
           ⟨Cache.DiskFile.entry (now + 60 * hours + minutes) all_items,
            st.fetches + sres.2⟩)) = (.ok items, st') →
      ∃ e, st'.entry = Cache.DiskFile.entry e items := by
    intro d hd
    cases hs : (VirtualBrowseTaxonomyEndpoint.scrape_items_from_frontend
        pages divOf itemsOf).1 with
    | error e =>
      rw [show (VirtualBrowseTaxonomyEndpoint.scrape_items_from_frontend
        pages divOf itemsOf) = (.error e,
          (VirtualBrowseTaxonomyEndpoint.scrape_items_from_frontend
            pages divOf itemsOf).2) from Prod.ext hs rfl] at hd
      exact absurd hd (by simp)
    | ok l =>
      rw [show (VirtualBrowseTaxonomyEndpoint.scrape_items_from_frontend
        pages divOf itemsOf) = (.ok l,
          (VirtualBrowseTaxonomyEndpoint.scrape_items_from_frontend
            pages divOf itemsOf).2) from Prod.ext hs rfl] at hd
      dsimp only at hd
      simp only [Prod.mk.injEq, Except.ok.injEq] at hd
      obtain ⟨hd1, hd2⟩ := hd
      refine ⟨now + 60 * hours + minutes, ?_⟩
      rw [← hd2, hd1]
  cases hE : st.entry with
  | absent =>
    rw [hE] at h
    exact hscr Cache.DiskFile.absent h
  | corrupt =>
    rw [hE] at h
    exact hscr Cache.DiskFile.absent h
  | entry e o =>
    rw [hE] at h
    by_cases he : e < now
    · rw [show Cache.retrieve now (Cache.DiskFile.entry e o) =
        (none, Cache.DiskFile.entry e o) by simp [Cache.retrieve, he]] at h
      exact hscr (Cache.DiskFile.entry e o) h
    · rw [show Cache.retrieve now (Cache.DiskFile.entry e o) =
        (some o, Cache.DiskFile.entry e o) by simp [Cache.retrieve, he]] at h
      dsimp only at h
      by_cases ho : o.isEmpty
      · rw [if_pos ho] at h
        exact hscr (Cache.DiskFile.entry e o) h
      · rw [if_neg ho] at h
        simp only [Prod.mk.injEq, Except.ok.injEq] at h
        obtain ⟨h1, h2⟩ := h
        exact ⟨e, by rw [← h2, h1]⟩

/-- Counterexample to C3: `call` tests the retrieved cache value with Python
truthiness (`if cached_items:`), so a stored empty aggregate is treated as
a cache miss.  Against the concrete zero-result remote, the first call
scrapes (one fetch) and stores `[]` with expiry 60; the second call, made
at the same instant with that entry still fresh, performs another network
fetch (the counter rises from 1 to 2) instead of the claimed zero. -/
theorem c3_counterexample :
    VirtualBrowseTaxonomyEndpoint.call 1 0 true 0 pagesZero divZero itemsNone
      ⟨Cache.DiskFile.absent, 0⟩ =
      (.ok ([] : List String), ⟨Cache.DiskFile.entry 60 [], 1⟩) ∧
    VirtualBrowseTaxonomyEndpoint.call 1 0 true 0 pagesZero divZero itemsNone
      ⟨Cache.DiskFile.entry 60 [], 1⟩ =
      (.ok ([] : List String), ⟨Cache.DiskFile.entry 60 [], 2⟩) := by
  exact ⟨rfl, rfl⟩

/-- C3 amended: when the first call returns a **non-empty** aggregate, a
second call with identical parameters made while the stored entry is
non-expired returns the bit-for-bit identical aggregate and performs zero
network fetches (the returned state, fetch counter included, is unchanged).
For an empty aggregate the Python truthiness test treats the cached value
as a miss and the second call re-scrapes (see the counterexample). -/
theorem c3_cache_idempotence_amended {α : Type} (hours minutes now₁ now₂ : Nat)
    (pages : Nat → Response) (divOf : String → Option String)
    (itemsOf : String → List α)
    (st₀ st₁ : VirtualBrowseTaxonomyEndpoint.CallState α) (items : List α)
    (httl : hours + minutes ≠ 0)
    (h1 : VirtualBrowseTaxonomyEndpoint.call hours minutes true now₁ pages
        divOf itemsOf st₀ = (.ok items, st₁))
    (hne : items ≠ [])
    (hfresh : ∀ e o, st₁.entry = Cache.DiskFile.entry e o → now₂ ≤ e) :
    VirtualBrowseTaxonomyEndpoint.call hours minutes true now₂ pages divOf
      itemsOf st₁ = (.ok items, st₁) := by
  obtain ⟨e, hE⟩ := call_ok_entry hours minutes now₁ pages divOf itemsOf
    st₀ st₁ items httl h1
  have hle := hfresh e items hE
  unfold VirtualBrowseTaxonomyEndpoint.call
  rw [if_neg httl, if_neg (by simp), hE]
  rw [show Cache.retrieve now₂ (Cache.DiskFile.entry e items) =
    (some items, Cache.DiskFile.entry e items) by
      simp [Cache.retrieve]; omega]
  dsimp only
  rw [if_neg (by simp [List.isEmpty_iff, hne])]
  rw [← hE]

/-- Witness for C3 amended: after a first call that scraped and stored the
one-record aggregate `["item"]`, the second call at the same instant
returns it from the cache with the state (and fetch count) unchanged. -/
theorem c3_cache_idempotence_amended_witness :
    VirtualBrowseTaxonomyEndpoint.call 1 0 true 0 pagesZero divZero itemsOne
      ⟨Cache.DiskFile.entry 60 ["item"], 1⟩ =
      (.ok ["item"], ⟨Cache.DiskFile.entry 60 ["item"], 1⟩) := by
  exact c3_cache_idempotence_amended 1 0 0 0 pagesZero divZero itemsOne
    ⟨Cache.DiskFile.absent, 0⟩ ⟨Cache.DiskFile.entry 60 ["item"], 1⟩ ["item"]
    (by omega) (by rfl) (by simp) (by intro e o h; omega)

theorem digit_char_isDigit : ∀ d : Fin 10,
    (Char.ofNat (48 + d.val)).isDigit = true := by decide

theorem digit_char_not_ws : ∀ d : Fin 10,
    (Char.ofNat (48 + d.val)).isWhitespace = false := by decide

theorem digit_char_toNat : ∀ d : Fin 10,
    (Char.ofNat (48 + d.val)).toNat = 48 + d.val := by decide

theorem isPrefixOf_self_append (w tail : List Char) :
    w.isPrefixOf (w ++ tail) = true := by
  induction w with
  | nil => simp [List.isPrefixOf]
  | cons c cs ih => simp [List.isPrefixOf, ih]

theorem skipWs_no_ws (cs : List Char) (h : headNotWs cs) :
    skipWs cs = (0, cs) := by
  cases cs with
  | nil => rfl
  | cons c t => simp [skipWs, headNotWs] at h ⊢; simp [h]

theorem headNotWs_render (ds : List (Fin 10)) (rest : List Char)
    (h : ds ≠ []) : headNotWs (renderDigits ds ++ rest) := by
  cases ds with
  | nil => exact absurd rfl h
  | cons d t => simpa [renderDigits, headNotWs] using digit_char_not_ws d

theorem headNotWs_append (w rest : List Char) (hw : headNotWs w)
    (hne : w ≠ []) : headNotWs (w ++ rest) := by
  cases w with
  | nil => exact absurd rfl hne
  | cons c t => simpa [headNotWs] using hw

theorem matchToks_space (rest : List RTok) (cs : List Char)
    (h : skipWs cs = (0, cs)) :
    matchToks (.wsMany :: rest) (' ' :: cs) = matchToks rest cs := by
  have hs : skipWs (' ' :: cs) = ((skipWs cs).1 + 1, (skipWs cs).2) := rfl
  rw [h] at hs
  simp [matchToks, hs]

theorem takeDigits_render (ds : List (Fin 10)) (acc : Nat) (rest : List Char)
    (h : headNotDigit rest) :
    takeDigits acc (renderDigits ds ++ rest) =
      (ds.foldl (fun a d => 10 * a + d.val) acc, rest) := by
  induction ds generalizing acc with
  | nil =>
    cases rest with
    | nil => rfl
    | cons c t =>
      simp [headNotDigit] at h
      simp [renderDigits, takeDigits, h]
  | cons d ds2 ih =>
    have hd : (48 + d.val) - 48 = d.val := by omega
    calc takeDigits acc (renderDigits (d :: ds2) ++ rest)
        = takeDigits (10 * acc + ((Char.ofNat (48 + d.val)).toNat - 48))
            (renderDigits ds2 ++ rest) := by
          simp [renderDigits, takeDigits, digit_char_isDigit d]
      _ = takeDigits (10 * acc + d.val) (renderDigits ds2 ++ rest) := by
          rw [digit_char_toNat d, hd]
      _ = ((d :: ds2).foldl (fun a x => 10 * a + x.val) acc, rest) := by
          rw [ih (10 * acc + d.val)]
          simp

theorem matchToks_digits (ds : List (Fin 10)) (rest : List RTok)
    (cs : List Char) (r : List Nat) (hds : ds ≠ []) (hcs : headNotDigit cs)
    (h : matchToks rest cs = some r) :
    matchToks (.digits :: rest) (renderDigits ds ++ cs) =
      some (digitsVal ds :: r) := by
  cases ds with
  | nil => exact absurd rfl hds
  | cons d ds2 =>
    have heq : matchToks (.digits :: rest) (renderDigits (d :: ds2) ++ cs) =
        (matchToks rest (takeDigits 0 (renderDigits (d :: ds2) ++ cs)).2).map
          ((takeDigits 0 (renderDigits (d :: ds2) ++ cs)).1 :: ·) := by
      rw [show renderDigits (d :: ds2) ++ cs =
        Char.ofNat (48 + d.val) :: (renderDigits ds2 ++ cs) from rfl]
      simp [matchToks, digit_char_isDigit d]
    rw [heq, takeDigits_render (d :: ds2) 0 cs hcs, h]
    rfl

theorem tryAlts_select (k : List Char → Option (List Nat)) (w : List Char)
    (more : List (List Char)) (tail : List Char) (r : List Nat)
    (hk : k tail = some r) :
    tryAlts k (w :: more) (w ++ tail) = some r := by
  simp [tryAlts, isPrefixOf_self_append, List.drop_left, hk]

theorem tryAlts_skip (k : List Char → Option (List Nat)) (w : List Char)
    (more : List (List Char)) (cs : List Char)
    (h : (if w.isPrefixOf cs then k (cs.drop w.length) else none) = none) :
    tryAlts k (w :: more) cs = tryAlts k more cs := by
  simp only [tryAlts]
  rw [h]

theorem reSearch_here (toks : List RTok) (c : Char) (t : List Char)
    (r : List Nat) (h : matchToks toks (c :: t) = some r) :
    reSearch toks (c :: t) = some r := by
  simp only [reSearch]
  rw [h]

theorem headNotWs_render_nil (ds : List (Fin 10)) (h : ds ≠ []) :
    headNotWs (renderDigits ds) := by
  have := headNotWs_render ds [] h
  simpa using this

theorem matchToks_alts (ws : List (List Char)) (rest : List RTok)
    (cs : List Char) :
    matchToks (.alts ws :: rest) cs = tryAlts (matchToks rest) ws cs := rfl

theorem alts1_en (tail : List Char) (r : List Nat)
    (hk : matchToks baseRest1 tail = some r) :
    tryAlts (matchToks baseRest1) baseW1 ("Results".data ++ tail) = some r := by
  exact tryAlts_select _ _ _ _ _ hk

theorem alts1_fr (tail : List Char) (r : List Nat)
    (hk : matchToks baseRest1 tail = some r) :
    tryAlts (matchToks baseRest1) baseW1 ("Résultats".data ++ tail) = some r := by
  have s0 : tryAlts (matchToks baseRest1) ["Results".data, "Résultats".data, "Resultados".data, "Resultaten".data]
      ("Résultats".data ++ tail) =
      tryAlts (matchToks baseRest1) ["Résultats".data, "Resultados".data, "Resultaten".data] ("Résultats".data ++ tail) :=
    tryAlts_skip _ _ _ _ rfl
  rw [show baseW1 = ["Results".data, "Résultats".data, "Resultados".data, "Resultaten".data] from rfl, s0]
  exact tryAlts_select _ _ _ _ _ hk

theorem alts1_es (tail : List Char) (r : List Nat)
    (hk : matchToks baseRest1 tail = some r) :
    tryAlts (matchToks baseRest1) baseW1 ("Resultados".data ++ tail) = some r := by
  have s0 : tryAlts (matchToks baseRest1) ["Results".data, "Résultats".data, "Resultados".data, "Resultaten".data]
      ("Resultados".data ++ tail) =
      tryAlts (matchToks baseRest1) ["Résultats".data, "Resultados".data, "Resultaten".data] ("Resultados".data ++ tail) :=
    tryAlts_skip _ _ _ _ rfl
  have s1 : tryAlts (matchToks baseRest1) ["Résultats".data, "Resultados".data, "Resultaten".data]
      ("Resultados".data ++ tail) =
      tryAlts (matchToks baseRest1) ["Resultados".data, "Resultaten".data] ("Resultados".data ++ tail) :=
    tryAlts_skip _ _ _ _ rfl
  rw [show baseW1 = ["Results".data, "Résultats".data, "Resultados".data, "Resultaten".data] from rfl, s0, s1]
  exact tryAlts_select _ _ _ _ _ hk

theorem alts1_nl (tail : List Char) (r : List Nat)
    (hk : matchToks baseRest1 tail = some r) :
    tryAlts (matchToks baseRest1) baseW1 ("Resultaten".data ++ tail) = some r := by
  have s0 : tryAlts (matchToks baseRest1) ["Results".data, "Résultats".data, "Resultados".data, "Resultaten".data]
      ("Resultaten".data ++ tail) =
      tryAlts (matchToks baseRest1) ["Résultats".data, "Resultados".data, "Resultaten".data] ("Resultaten".data ++ tail) :=
    tryAlts_skip _ _ _ _ rfl
  have s1 : tryAlts (matchToks baseRest1) ["Résultats".data, "Resultados".data, "Resultaten".data]
      ("Resultaten".data ++ tail) =
      tryAlts (matchToks baseRest1) ["Resultados".data, "Resultaten".data] ("Resultaten".data ++ tail) :=
    tryAlts_skip _ _ _ _ rfl
  have s2 : tryAlts (matchToks baseRest1) ["Resultados".data, "Resultaten".data]
      ("Resultaten".data ++ tail) =
      tryAlts (matchToks baseRest1) ["Resultaten".data] ("Resultaten".data ++ tail) :=
    tryAlts_skip _ _ _ _ rfl
  rw [show baseW1 = ["Results".data, "Résultats".data, "Resultados".data, "Resultaten".data] from rfl, s0, s1, s2]
  exact tryAlts_select _ _ _ _ _ hk

theorem alts2_en (tail : List Char) (r : List Nat)
    (hk : matchToks baseRest2 tail = some r) :
    tryAlts (matchToks baseRest2) baseW2 ("to".data ++ tail) = some r := by
  exact tryAlts_select _ _ _ _ _ hk

theorem alts2_fr (tail : List Char) (r : List Nat)
    (hk : matchToks baseRest2 tail = some r) :
    tryAlts (matchToks baseRest2) baseW2 ("à".data ++ tail) = some r := by
  have s0 : tryAlts (matchToks baseRest2) ["to".data, "à".data, "a".data, "tot".data]
      ("à".data ++ tail) =
      tryAlts (matchToks baseRest2) ["à".data, "a".data, "tot".data] ("à".data ++ tail) :=
    tryAlts_skip _ _ _ _ rfl
  rw [show baseW2 = ["to".data, "à".data, "a".data, "tot".data] from rfl, s0]
  exact tryAlts_select _ _ _ _ _ hk

theorem alts2_es (tail : List Char) (r : List Nat)
    (hk : matchToks baseRest2 tail = some r) :
    tryAlts (matchToks baseRest2) baseW2 ("a".data ++ tail) = some r := by
  have s0 : tryAlts (matchToks baseRest2) ["to".data, "à".data, "a".data, "tot".data]
      ("a".data ++ tail) =
      tryAlts (matchToks baseRest2) ["à".data, "a".data, "tot".data] ("a".data ++ tail) :=
    tryAlts_skip _ _ _ _ rfl
  have s1 : tryAlts (matchToks baseRest2) ["à".data, "a".data, "tot".data]
      ("a".data ++ tail) =
      tryAlts (matchToks baseRest2) ["a".data, "tot".data] ("a".data ++ tail) :=
    tryAlts_skip _ _ _ _ rfl
  rw [show baseW2 = ["to".data, "à".data, "a".data, "tot".data] from rfl, s0, s1]
  exact tryAlts_select _ _ _ _ _ hk

theorem alts2_nl (tail : List Char) (r : List Nat)
    (hk : matchToks baseRest2 tail = some r) :
    tryAlts (matchToks baseRest2) baseW2 ("tot".data ++ tail) = some r := by
  have s0 : tryAlts (matchToks baseRest2) ["to".data, "à".data, "a".data, "tot".data]
      ("tot".data ++ tail) =
      tryAlts (matchToks baseRest2) ["à".data, "a".data, "tot".data] ("tot".data ++ tail) :=
    tryAlts_skip _ _ _ _ rfl
  have s1 : tryAlts (matchToks baseRest2) ["à".data, "a".data, "tot".data]
      ("tot".data ++ tail) =
      tryAlts (matchToks baseRest2) ["a".data, "tot".data] ("tot".data ++ tail) :=
    tryAlts_skip _ _ _ _ rfl
  have s2 : tryAlts (matchToks baseRest2) ["a".data, "tot".data]
      ("tot".data ++ tail) =
      tryAlts (matchToks baseRest2) ["tot".data] ("tot".data ++ tail) :=
    tryAlts_skip _ _ _ _ rfl
  rw [show baseW2 = ["to".data, "à".data, "a".data, "tot".data] from rfl, s0, s1, s2]
  exact tryAlts_select _ _ _ _ _ hk

theorem alts3_en (tail : List Char) (r : List Nat)
    (hk : matchToks baseRest3 tail = some r) :
    tryAlts (matchToks baseRest3) baseW3 ("of".data ++ tail) = some r := by
  exact tryAlts_select _ _ _ _ _ hk

theorem alts3_fr (tail : List Char) (r : List Nat)
    (hk : matchToks baseRest3 tail = some r) :
    tryAlts (matchToks baseRest3) baseW3 ("sur".data ++ tail) = some r := by
  have s0 : tryAlts (matchToks baseRest3) ["of".data, "sur".data, "de".data, "van".data]
      ("sur".data ++ tail) =
      tryAlts (matchToks baseRest3) ["sur".data, "de".data, "van".data] ("sur".data ++ tail) :=
    tryAlts_skip _ _ _ _ rfl
  rw [show baseW3 = ["of".data, "sur".data, "de".data, "van".data] from rfl, s0]
  exact tryAlts_select _ _ _ _ _ hk

theorem alts3_es (tail : List Char) (r : List Nat)
    (hk : matchToks baseRest3 tail = some r) :
    tryAlts (matchToks baseRest3) baseW3 ("de".data ++ tail) = some r := by
  have s0 : tryAlts (matchToks baseRest3) ["of".data, "sur".data, "de".data, "van".data]
      ("de".data ++ tail) =
      tryAlts (matchToks baseRest3) ["sur".data, "de".data, "van".data] ("de".data ++ tail) :=
    tryAlts_skip _ _ _ _ rfl
  have s1 : tryAlts (matchToks baseRest3) ["sur".data, "de".data, "van".data]
      ("de".data ++ tail) =
      tryAlts (matchToks baseRest3) ["de".data, "van".data] ("de".data ++ tail) :=
    tryAlts_skip _ _ _ _ rfl
  rw [show baseW3 = ["of".data, "sur".data, "de".data, "van".data] from rfl, s0, s1]
  exact tryAlts_select _ _ _ _ _ hk

theorem alts3_nl (tail : List Char) (r : List Nat)
    (hk : matchToks baseRest3 tail = some r) :
    tryAlts (matchToks baseRest3) baseW3 ("van".data ++ tail) = some r := by
  have s0 : tryAlts (matchToks baseRest3) ["of".data, "sur".data, "de".data, "van".data]
      ("van".data ++ tail) =
      tryAlts (matchToks baseRest3) ["sur".data, "de".data, "van".data] ("van".data ++ tail) :=
    tryAlts_skip _ _ _ _ rfl
  have s1 : tryAlts (matchToks baseRest3) ["sur".data, "de".data, "van".data]
      ("van".data ++ tail) =
      tryAlts (matchToks baseRest3) ["de".data, "van".data] ("van".data ++ tail) :=
    tryAlts_skip _ _ _ _ rfl
  have s2 : tryAlts (matchToks baseRest3) ["de".data, "van".data]
      ("van".data ++ tail) =
      tryAlts (matchToks baseRest3) ["van".data] ("van".data ++ tail) :=
    tryAlts_skip _ _ _ _ rfl
  rw [show baseW3 = ["of".data, "sur".data, "de".data, "van".data] from rfl, s0, s1, s2]
  exact tryAlts_select _ _ _ _ _ hk

theorem matchToks_phrase (w1 w2 w3 : String) (xs ys zs : List (Fin 10))
    (hxs : xs ≠ []) (hys : ys ≠ []) (hzs : zs ≠ [])
    (hw2 : headNotWs w2.data) (hw2ne : w2.data ≠ [])
    (hw3 : headNotWs w3.data) (hw3ne : w3.data ≠ [])
    (hW1 : ∀ (tail : List Char) (r : List Nat),
      matchToks baseRest1 tail = some r →
      tryAlts (matchToks baseRest1) baseW1 (w1.data ++ tail) = some r)
    (hW2 : ∀ (tail : List Char) (r : List Nat),
      matchToks baseRest2 tail = some r →
      tryAlts (matchToks baseRest2) baseW2 (w2.data ++ tail) = some r)
    (hW3 : ∀ (tail : List Char) (r : List Nat),
      matchToks baseRest3 tail = some r →
      tryAlts (matchToks baseRest3) baseW3 (w3.data ++ tail) = some r) :
    matchToks RESULTS_base (phrase w1 w2 w3 xs ys zs).data =
      some [digitsVal xs, digitsVal ys, digitsVal zs] := by
  have h1 : matchToks [.digits] (renderDigits zs) = some [digitsVal zs] := by
    have h := matchToks_digits zs [] [] [] hzs trivial rfl
    simpa using h
  have h2 : matchToks baseRest3 (' ' :: renderDigits zs) =
      some [digitsVal zs] := by
    rw [show baseRest3 = .wsMany :: [RTok.digits] from rfl,
      matchToks_space _ _ (skipWs_no_ws _ (headNotWs_render_nil zs hzs))]
    exact h1
  have h3 : matchToks (.alts baseW3 :: baseRest3)
      (w3.data ++ ' ' :: renderDigits zs) = some [digitsVal zs] := by
    rw [matchToks_alts]
    exact hW3 _ _ h2
  have h4 : matchToks (.wsMany :: .alts baseW3 :: baseRest3)
      (' ' :: (w3.data ++ ' ' :: renderDigits zs)) = some [digitsVal zs] := by
    rw [matchToks_space _ _ (skipWs_no_ws _ (headNotWs_append _ _ hw3 hw3ne))]
    exact h3
  have h5 : matchToks (.digits :: .wsMany :: .alts baseW3 :: baseRest3)
      (renderDigits ys ++ ' ' :: (w3.data ++ ' ' :: renderDigits zs)) =
      some [digitsVal ys, digitsVal zs] :=
    matchToks_digits ys _ _ _ hys
      (show (' ').isDigit = false by decide) h4
  have h6 : matchToks baseRest2
      (' ' :: (renderDigits ys ++ ' ' :: (w3.data ++ ' ' :: renderDigits zs)))
      = some [digitsVal ys, digitsVal zs] := by
    rw [show baseRest2 =
      .wsMany :: .digits :: .wsMany :: .alts baseW3 :: baseRest3 from rfl,
      matchToks_space _ _ (skipWs_no_ws _ (headNotWs_render ys _ hys))]
    exact h5
  have h7 : matchToks (.alts baseW2 :: baseRest2)
      (w2.data ++ ' ' :: (renderDigits ys ++ ' ' ::
        (w3.data ++ ' ' :: renderDigits zs))) =
      some [digitsVal ys, digitsVal zs] := by
    rw [matchToks_alts]
    exact hW2 _ _ h6
  have h8 : matchToks (.wsMany :: .alts baseW2 :: baseRest2)
      (' ' :: (w2.data ++ ' ' :: (renderDigits ys ++ ' ' ::
        (w3.data ++ ' ' :: renderDigits zs)))) =
      some [digitsVal ys, digitsVal zs] := by
    rw [matchToks_space _ _ (skipWs_no_ws _ (headNotWs_append _ _ hw2 hw2ne))]
    exact h7
  have h9 : matchToks (.digits :: .wsMany :: .alts baseW2 :: baseRest2)
      (renderDigits xs ++ ' ' :: (w2.data ++ ' ' :: (renderDigits ys ++
        ' ' :: (w3.data ++ ' ' :: renderDigits zs)))) =
      some [digitsVal xs, digitsVal ys, digitsVal zs] :=
    matchToks_digits xs _ _ _ hxs
      (show (' ').isDigit = false by decide) h8
  have h10 : matchToks baseRest1
      (' ' :: (renderDigits xs ++ ' ' :: (w2.data ++ ' ' :: (renderDigits ys
        ++ ' ' :: (w3.data ++ ' ' :: renderDigits zs))))) =
      some [digitsVal xs, digitsVal ys, digitsVal zs] := by
    rw [show baseRest1 =
      .wsMany :: .digits :: .wsMany :: .alts baseW2 :: baseRest2 from rfl,
      matchToks_space _ _ (skipWs_no_ws _ (headNotWs_render xs _ hxs))]
    exact h9
  rw [show RESULTS_base = .alts baseW1 :: baseRest1 from rfl,
    show (phrase w1 w2 w3 xs ys zs).data = w1.data ++ ' ' ::
      (renderDigits xs ++ ' ' :: (w2.data ++ ' ' :: (renderDigits ys ++
        ' ' :: (w3.data ++ ' ' :: renderDigits zs)))) from rfl,
    matchToks_alts]
  exact hW1 _ _ h10

theorem parse_total_of_search (p : String) (vx vy vz : Nat)
    (h : reSearch RESULTS_base p.data = some [vx, vy, vz]) :
    parse_total RESULTS_base (some p) = .ok vz := by
  unfold parse_total
  rw [show str_of_tag (some p) = p from rfl, h]
  rfl

/-- C6: the result-count parse of the models/base.py variant.  For every
start/end/total written as (arbitrary, nonempty) digit strings X, Y, Z, the
parser returns the numeric value of Z on the phrase `Results X to Y of Z`
in each of the four supported display languages, through the single
locale-tolerant pattern; it fails with the parsing error when no marker
element is found (`str(None)` never matches) or when the marker's text
matches no supported phrasing; and that failure is fatal to the scrape —
`get_list_from_ui` aborts with it after the single first-page fetch. -/
theorem c6_result_count_parse (s : String) (xs ys zs : List (Fin 10))
    (hxs : xs ≠ []) (hys : ys ≠ []) (hzs : zs ≠ []) :
    parse_total RESULTS_base (some (phrase "Results" "to" "of" xs ys zs)) =
      .ok (digitsVal zs) ∧
    parse_total RESULTS_base (some (phrase "Résultats" "à" "sur" xs ys zs)) =
      .ok (digitsVal zs) ∧
    parse_total RESULTS_base (some (phrase "Resultados" "a" "de" xs ys zs)) =
      .ok (digitsVal zs) ∧
    parse_total RESULTS_base (some (phrase "Resultaten" "tot" "van" xs ys zs))
      = .ok (digitsVal zs) ∧
    parse_total RESULTS_base none = .error .parseError ∧
    (reSearch RESULTS_base s.data = none →
      parse_total RESULTS_base (some s) = .error .parseError) ∧
    (∀ (pages : Nat → Response) (divOf : String → Option String)
        (itemsOf : String → List String) (path sf_culture t1 : String),
      VirtualBaseModel.ACCEPTED_LANGUAGES.contains sf_culture = true →
      strContains path "\x7bpage\x7d" = true →
      strContains path "\x7blimit\x7d" = true →
      VirtualBaseModel.get_page_content (pages 1) = .ok t1 →
      parse_total RESULTS_base (divOf t1) = .error .parseError →
      VirtualBaseModel.get_list_from_ui path sf_culture pages divOf itemsOf =
        (.error .parseError, 1)) := by
  refine ⟨?_, ?_, ?_, ?_, rfl, ?_, ?_⟩
  · exact parse_total_of_search _ _ _ _ (reSearch_here _ _ _ _
      (matchToks_phrase "Results" "to" "of" xs ys zs hxs hys hzs
        (show ('t').isWhitespace = false by decide) (by decide)
        (show ('o').isWhitespace = false by decide) (by decide)
        alts1_en alts2_en alts3_en))
  · exact parse_total_of_search _ _ _ _ (reSearch_here _ _ _ _
      (matchToks_phrase "Résultats" "à" "sur" xs ys zs hxs hys hzs
        (show ('à').isWhitespace = false by decide) (by decide)
        (show ('s').isWhitespace = false by decide) (by decide)
        alts1_fr alts2_fr alts3_fr))
  · exact parse_total_of_search _ _ _ _ (reSearch_here _ _ _ _
      (matchToks_phrase "Resultados" "a" "de" xs ys zs hxs hys hzs
        (show ('a').isWhitespace = false by decide) (by decide)
        (show ('d').isWhitespace = false by decide) (by decide)
        alts1_es alts2_es alts3_es))
  · exact parse_total_of_search _ _ _ _ (reSearch_here _ _ _ _
      (matchToks_phrase "Resultaten" "tot" "van" xs ys zs hxs hys hzs
        (show ('t').isWhitespace = false by decide) (by decide)
        (show ('v').isWhitespace = false by decide) (by decide)
        alts1_nl alts2_nl alts3_nl))
  · intro hn
    unfold parse_total
    rw [show str_of_tag (some s) = s from rfl, hn]
  · intro pages divOf itemsOf path sf_culture t1 hlang hpg hlim hm1 hpe
    unfold VirtualBaseModel.get_list_from_ui
    rw [if_neg (by rw [hlang]; simp), if_neg (by rw [hpg]; simp),
      if_neg (by rw [hlim]; simp)]
    unfold VirtualBaseModel.get_total_list_items
    rw [hm1]
    dsimp only
    rw [hpe]

/-- Witness for C6 at `Résultats 1 à 10 sur 130`: the parser returns 130. -/
theorem c6_result_count_parse_witness :
    parse_total RESULTS_base
      (some (phrase "Résultats" "à" "sur" [1] [1, 0] [1, 3, 0])) =
      .ok 130 := by
  exact (c6_result_count_parse "x" [1] [1, 0] [1, 3, 0]
    (by decide) (by decide) (by decide)).2.1

set_option maxRecDepth 8192 in
/-- RFC 1321 test vector: MD5 of the empty string. -/
theorem md5hex_d41d :
    BrowseInformationObjectEndpoint.md5hex
      (BrowseInformationObjectEndpoint.encode_utf8 "") =
      "d41d8cd98f00b204e9800998ecf8427e" := by decide

set_option maxRecDepth 8192 in
/-- RFC 1321 test vector: MD5 of `abc`. -/
theorem md5hex_abc :
    BrowseInformationObjectEndpoint.md5hex
      (BrowseInformationObjectEndpoint.encode_utf8 "abc") =
      "900150983cd24fb0d6963f7d28e17f72" := by decide

set_option maxRecDepth 8192 in
/-- Counterexample to C4: two browse queries with the same `sq` key-value
pairs in different insertion orders produce different cache keys —
`json.dumps` without `sort_keys=True` serialises a dict in iteration
(insertion) order, so the serialised strings, and hence their MD5s,
differ.  (The two key values here equal CPython's
`'browse-objects_' + md5(json.dumps(d).encode('utf-8')).hexdigest()` for
the two insertion orders.) -/
theorem c4_counterexample :
    BrowseInformationObjectEndpoint.get_cache_id
        [("sq0", "school"), ("sq1", "records")] [] [] [] ≠
      BrowseInformationObjectEndpoint.get_cache_id
        [("sq1", "records"), ("sq0", "school")] [] [] [] := by decide

/-- C4 amended: the cache key is a deterministic function of the merged
parameter mapping **with its iteration order** — two queries whose merged
`{**sq, **sf, **so, **filters}` dicts hold the same key-value pairs in the
same order get the same key; permuting the insertion order may change the
key (see the counterexample). -/
theorem c4_cache_key_amended
    (sq sf so filters sq₂ sf₂ so₂ filters₂ : List (String × String))
    (h : BrowseInformationObjectEndpoint.dictMerge [sq, sf, so, filters] =
      BrowseInformationObjectEndpoint.dictMerge [sq₂, sf₂, so₂, filters₂]) :
    BrowseInformationObjectEndpoint.get_cache_id sq sf so filters =
      BrowseInformationObjectEndpoint.get_cache_id sq₂ sf₂ so₂ filters₂ := by
  unfold BrowseInformationObjectEndpoint.get_cache_id
  rw [h]

/-- Witness for C4 amended: splitting the same pairs between `sq` and the
`filters` slot of the merge yields the same merged dict and hence the same
key as passing them all in `sq`. -/
theorem c4_cache_key_amended_witness :
    BrowseInformationObjectEndpoint.get_cache_id
        [("sq0", "school"), ("sq1", "records")] [] [] [] =
      BrowseInformationObjectEndpoint.get_cache_id
        [("sq0", "school")] [] [] [("sq1", "records")] := by
  exact c4_cache_key_amended _ _ _ _ _ _ _ _ (by decide)

end AtomSpec
